import Mathlib

set_option maxHeartbeats 1000000

/-!
Shallow embedding of the `vect` crate (sources `src/vector.rs`, `src/lib.rs`,
`src/prelude.rs`, `src/vector2.rs`, `src/vector3.rs`): 2D and 3D vectors over
`f64`, with the operation surface of the `Vector` trait.

The scalar type `f64` is modelled by the inductive type `F`: a finite value
carries an exact rational payload, and the special values `inf` (+∞), `ninf`
(−∞) and `nan` are explicit constructors.  Arithmetic on the special values
follows IEEE-754 (NaN propagation, `∞ − ∞ = NaN`, `0/0 = NaN`, comparisons
with NaN are false, ...); arithmetic on finite values is exact rational
arithmetic.  Two idealisations, stated here once: binary64 rounding is not
modelled (no claim below depends on rounding), and the model has a single
zero (no claim below depends on the sign of zero).
-/

namespace Vect

inductive F where
  | fin : ℚ → F
  | inf : F
  | ninf : F
  | nan : F
deriving DecidableEq

/-- IEEE addition on the model scalars. -/
def fadd : F → F → F
  | F.nan, _ => F.nan
  | _, F.nan => F.nan
  | F.fin a, F.fin b => F.fin (a + b)
  | F.inf, F.ninf => F.nan
  | F.ninf, F.inf => F.nan
  | F.inf, _ => F.inf
  | _, F.inf => F.inf
  | F.ninf, _ => F.ninf
  | _, F.ninf => F.ninf

/-- IEEE subtraction on the model scalars. -/
def fsub : F → F → F
  | F.nan, _ => F.nan
  | _, F.nan => F.nan
  | F.fin a, F.fin b => F.fin (a - b)
  | F.inf, F.inf => F.nan
  | F.ninf, F.ninf => F.nan
  | F.inf, _ => F.inf
  | F.ninf, _ => F.ninf
  | _, F.inf => F.ninf
  | _, F.ninf => F.inf

/-- IEEE multiplication on the model scalars (`∞ · 0 = NaN`, signs of
infinities follow the sign of the finite factor). -/
def fmul : F → F → F
  | F.nan, _ => F.nan
  | _, F.nan => F.nan
  | F.fin a, F.fin b => F.fin (a * b)
  | F.inf, F.inf => F.inf
  | F.inf, F.ninf => F.ninf
  | F.ninf, F.inf => F.ninf
  | F.ninf, F.ninf => F.inf
  | F.inf, F.fin b => if b = 0 then F.nan else if 0 < b then F.inf else F.ninf
  | F.fin a, F.inf => if a = 0 then F.nan else if 0 < a then F.inf else F.ninf
  | F.ninf, F.fin b => if b = 0 then F.nan else if 0 < b then F.ninf else F.inf
  | F.fin a, F.ninf => if a = 0 then F.nan else if 0 < a then F.ninf else F.inf

/-- IEEE division on the model scalars (`0/0 = NaN`, finite nonzero over zero
gives a signed infinity, `∞/∞ = NaN`, finite over infinite gives zero). -/
def fdiv : F → F → F
  | F.nan, _ => F.nan
  | _, F.nan => F.nan
  | F.fin a, F.fin b =>
      if b = 0 then (if a = 0 then F.nan else if 0 < a then F.inf else F.ninf)
      else F.fin (a / b)
  | F.fin _, F.inf => F.fin 0
  | F.fin _, F.ninf => F.fin 0
  | F.inf, F.fin b => if 0 ≤ b then F.inf else F.ninf
  | F.ninf, F.fin b => if 0 ≤ b then F.ninf else F.inf
  | F.inf, F.inf => F.nan
  | F.inf, F.ninf => F.nan
  | F.ninf, F.inf => F.nan
  | F.ninf, F.ninf => F.nan

/-- Model of `f64::sqrt`: NaN on NaN and on negative inputs (including −∞),
+∞ on +∞.  On nonnegative rationals the payload is `Rat.sqrt`, which is the
exact square root whenever one exists; its value on non-squares is an
idealisation of the rounded binary64 result (no theorem below depends on the
square root of a non-square). -/
def fsqrt : F → F
  | F.nan => F.nan
  | F.inf => F.inf
  | F.ninf => F.nan
  | F.fin q => if q < 0 then F.nan else F.fin (Rat.sqrt q)

/-- Model of `f64::powi(2)`: the square, computed as `x · x`. -/
def fsq (a : F) : F := fmul a a

/-- Model of `f64::acos`: NaN on NaN, on infinities, and outside [−1, 1].
The true arccosine of an in-domain rational is irrational; the model returns
a fixed finite stand-in there (no theorem below depends on finite arccosine
values, only on the clamping structure around `slerp`). -/
def facos : F → F
  | F.nan => F.nan
  | F.inf => F.nan
  | F.ninf => F.nan
  | F.fin q => if q < -1 ∨ 1 < q then F.nan else F.fin 0

/-- Model of `f64::sin`: NaN on NaN and on infinities.  The true sine of a
nonzero rational is irrational; the model returns a fixed finite stand-in on
finite inputs (no theorem below depends on finite sine values). -/
def fsin : F → F
  | F.nan => F.nan
  | F.inf => F.nan
  | F.ninf => F.nan
  | F.fin _ => F.fin 0

/-- IEEE `<=` (`PartialOrd` on `f64`): false whenever either side is NaN. -/
def fle : F → F → Bool
  | F.nan, _ => false
  | _, F.nan => false
  | F.ninf, _ => true
  | _, F.ninf => false
  | F.fin a, F.fin b => decide (a ≤ b)
  | F.fin _, F.inf => true
  | F.inf, F.inf => true
  | F.inf, F.fin _ => false

/-- IEEE `<`: false whenever either side is NaN. -/
def flt : F → F → Bool
  | F.nan, _ => false
  | _, F.nan => false
  | F.ninf, F.ninf => false
  | F.ninf, _ => true
  | _, F.ninf => false
  | F.fin a, F.fin b => decide (a < b)
  | F.fin _, F.inf => true
  | F.inf, _ => false

/-- IEEE `>`, as Rust derives it: `a > b` holds iff `b < a`. -/
def fgt (a b : F) : Bool := flt b a

/-- IEEE `==` (`PartialEq` on `f64`): false whenever either side is NaN. -/
def fbeq : F → F → Bool
  | F.nan, _ => false
  | _, F.nan => false
  | F.fin a, F.fin b => decide (a = b)
  | F.inf, F.inf => true
  | F.ninf, F.ninf => true
  | _, _ => false

/-- `f64::partial_cmp`: `none` whenever either side is NaN. -/
def fcmp : F → F → Option Ordering
  | F.nan, _ => none
  | _, F.nan => none
  | F.ninf, F.ninf => some Ordering.eq
  | F.ninf, _ => some Ordering.lt
  | _, F.ninf => some Ordering.gt
  | F.inf, F.inf => some Ordering.eq
  | F.inf, _ => some Ordering.gt
  | F.fin _, F.inf => some Ordering.lt
  | F.fin a, F.fin b =>
      if a < b then some Ordering.lt
      else if a = b then some Ordering.eq
      else some Ordering.gt

/-- True exactly on the two infinite values. -/
def F.isInfinite : F → Bool
  | F.inf => true
  | F.ninf => true
  | _ => false

/-- True exactly on finite values (neither NaN nor infinite). -/
def F.isFinite : F → Bool
  | F.fin _ => true
  | _ => false

/-- `struct Vector2 { x: f64, y: f64 }` from `src/vector2.rs`. -/
structure Vector2 where
  x : F
  y : F
deriving DecidableEq

/-- `struct Vector3 { x: f64, y: f64, z: f64 }` from `src/vector3.rs`. -/
structure Vector3 where
  x : F
  y : F
  z : F
deriving DecidableEq

/-- `impl Add for Vector2`: component-wise addition. -/
def Vector2.add (a b : Vector2) : Vector2 := ⟨fadd a.x b.x, fadd a.y b.y⟩

/-- `impl Sub for Vector2`: component-wise subtraction. -/
def Vector2.sub (a b : Vector2) : Vector2 := ⟨fsub a.x b.x, fsub a.y b.y⟩

/-- `impl Mul<f64> for Vector2`: vector times scalar. -/
def Vector2.mulScalar (a : Vector2) (s : F) : Vector2 := ⟨fmul a.x s, fmul a.y s⟩

/-- `impl Mul<Vector2> for f64`: scalar times vector. -/
def Vector2.smul (s : F) (a : Vector2) : Vector2 := ⟨fmul s a.x, fmul s a.y⟩

/-- `impl Div<f64> for Vector2`: vector divided by scalar. -/
def Vector2.divScalar (a : Vector2) (s : F) : Vector2 := ⟨fdiv a.x s, fdiv a.y s⟩

/-- Derived `PartialEq for Vector2`: component-wise IEEE equality. -/
def Vector2.veq (a b : Vector2) : Bool := fbeq a.x b.x && fbeq a.y b.y

/-- Derived `PartialOrd for Vector2`: lexicographic `partial_cmp` over the
fields in declaration order, `none` as soon as a field comparison is `none`. -/
def Vector2.vcmp (a b : Vector2) : Option Ordering :=
  match fcmp a.x b.x with
  | some Ordering.eq => fcmp a.y b.y
  | c => c

/-- Rust `>=` on `Vector2`: `partial_cmp` is `Greater` or `Equal`. -/
def Vector2.vge (a b : Vector2) : Bool :=
  match Vector2.vcmp a b with
  | some Ordering.gt => true
  | some Ordering.eq => true
  | _ => false

/-- Rust `<=` on `Vector2`: `partial_cmp` is `Less` or `Equal`. -/
def Vector2.vle (a b : Vector2) : Bool :=
  match Vector2.vcmp a b with
  | some Ordering.lt => true
  | some Ordering.eq => true
  | _ => false

/-- `Vector2::zero`. -/
def Vector2.zero : Vector2 := ⟨F.fin 0, F.fin 0⟩

/-- `Vector2::sqr_magnitude`: `self.x.powi(2) + self.y.powi(2)`. -/
def Vector2.sqr_magnitude (a : Vector2) : F := fadd (fsq a.x) (fsq a.y)

/-- `Vector2::magnitude`: `self.sqr_magnitude().sqrt()`. -/
def Vector2.magnitude (a : Vector2) : F := fsqrt (Vector2.sqr_magnitude a)

/-- `Vector2::normalized`: `self / self.magnitude()`. -/
def Vector2.normalized (a : Vector2) : Vector2 :=
  Vector2.divScalar a (Vector2.magnitude a)

/-- `Vector2::dot`: `self.x * other.x + self.y * other.y`. -/
def Vector2.dot (a b : Vector2) : F := fadd (fmul a.x b.x) (fmul a.y b.y)

/-- `Vector2::project`: `(self.dot(&other) / other.dot(&other)) * other`. -/
def Vector2.project (v onto : Vector2) : Vector2 :=
  Vector2.smul (fdiv (Vector2.dot v onto) (Vector2.dot onto onto)) onto

/-- `Vector2::clamp_magnitude`: `if self.magnitude() > max_len { self / max_len } else { self }`. -/
def Vector2.clamp_magnitude (v : Vector2) (max_len : F) : Vector2 :=
  if fgt (Vector2.magnitude v) max_len then Vector2.divScalar v max_len else v

/-- `Vector2::lerp_unclamped`: `(1.0 - t) * self + t * other`. -/
def Vector2.lerp_unclamped (a b : Vector2) (t : F) : Vector2 :=
  Vector2.add (Vector2.smul (fsub (F.fin 1) t) a) (Vector2.smul t b)

/-- `Vector2::lerp`: clamps `t` by returning `self` when `t <= 0.0` and
`other` when `t >= 1.0`, otherwise delegates to `lerp_unclamped`. -/
def Vector2.lerp (a b : Vector2) (t : F) : Vector2 :=
  if fle t (F.fin 0) then a
  else if fle (F.fin 1) t then b
  else Vector2.lerp_unclamped a b t

/-- Default `Vector::max` (identical in `src/vector.rs` and `src/lib.rs`):
`if self >= other { self } else { other }`. -/
def Vector2.max (a b : Vector2) : Vector2 := if Vector2.vge a b then a else b

/-- Default `Vector::min`: `if self <= other { self } else { other }`. -/
def Vector2.min (a b : Vector2) : Vector2 := if Vector2.vle a b then a else b

/-- `impl From<Vector3> for Vector2`: drops the z component. -/
def Vector2.ofVector3 (v : Vector3) : Vector2 := ⟨v.x, v.y⟩

/-- `impl Add for Vector3`. -/
def Vector3.add (a b : Vector3) : Vector3 :=
  ⟨fadd a.x b.x, fadd a.y b.y, fadd a.z b.z⟩

/-- `impl Sub for Vector3`. -/
def Vector3.sub (a b : Vector3) : Vector3 :=
  ⟨fsub a.x b.x, fsub a.y b.y, fsub a.z b.z⟩

/-- `impl Mul<f64> for Vector3`. -/
def Vector3.mulScalar (a : Vector3) (s : F) : Vector3 :=
  ⟨fmul a.x s, fmul a.y s, fmul a.z s⟩

/-- `impl Mul<Vector3> for f64`. -/
def Vector3.smul (s : F) (a : Vector3) : Vector3 :=
  ⟨fmul s a.x, fmul s a.y, fmul s a.z⟩

/-- `impl Div<f64> for Vector3`. -/
def Vector3.divScalar (a : Vector3) (s : F) : Vector3 :=
  ⟨fdiv a.x s, fdiv a.y s, fdiv a.z s⟩

/-- Derived `PartialEq for Vector3`. -/
def Vector3.veq (a b : Vector3) : Bool :=
  fbeq a.x b.x && fbeq a.y b.y && fbeq a.z b.z

/-- `Vector3::zero`. -/
def Vector3.zero : Vector3 := ⟨F.fin 0, F.fin 0, F.fin 0⟩

/-- `Vector3::sqr_magnitude`: `self.x.powi(2) + self.y.powi(2) + self.z.powi(2)`. -/
def Vector3.sqr_magnitude (a : Vector3) : F :=
  fadd (fadd (fsq a.x) (fsq a.y)) (fsq a.z)

/-- `Vector3::magnitude`: `self.sqr_magnitude().sqrt()`. -/
def Vector3.magnitude (a : Vector3) : F := fsqrt (Vector3.sqr_magnitude a)

/-- `Vector3::normalized`: `self / self.magnitude()`. -/
def Vector3.normalized (a : Vector3) : Vector3 :=
  Vector3.divScalar a (Vector3.magnitude a)

/-- `Vector3::dot` exactly as written in `src/vector3.rs` lines 282-284:
`self.x * other.x + self.y * other.y` — the source omits the z term. -/
def Vector3.dot (a b : Vector3) : F := fadd (fmul a.x b.x) (fmul a.y b.y)

/-- Refinement comparison: the dot product as the spec words it, the sum of
the component-wise products over every component of a `Vector3`. -/
def Vector3.dotSpec (a b : Vector3) : F :=
  fadd (fadd (fmul a.x b.x) (fmul a.y b.y)) (fmul a.z b.z)

/-- Modelled from the spec: `impl Vector for Vector3` in `src/vector3.rs`
does not define `project`, although the trait in `src/vector.rs` requires it;
the implementation is missing from the sources under src.  The spec gives
`project(v, onto) = (dot(v, onto) / dot(onto, onto)) * onto` with `dot` the
sum of the component-wise products, embedded here with that full dot. -/
def Vector3.project (v onto : Vector3) : Vector3 :=
  Vector3.smul (fdiv (Vector3.dotSpec v onto) (Vector3.dotSpec onto onto)) onto

/-- `Vector3::clamp_magnitude`: same shape as the 2D version. -/
def Vector3.clamp_magnitude (v : Vector3) (max_len : F) : Vector3 :=
  if fgt (Vector3.magnitude v) max_len then Vector3.divScalar v max_len else v

/-- `Vector3::lerp_unclamped`: `(1.0 - t) * self + t * other`. -/
def Vector3.lerp_unclamped (a b : Vector3) (t : F) : Vector3 :=
  Vector3.add (Vector3.smul (fsub (F.fin 1) t) a) (Vector3.smul t b)

/-- `Vector3::lerp`: same clamping shape as the 2D version. -/
def Vector3.lerp (a b : Vector3) (t : F) : Vector3 :=
  if fle t (F.fin 0) then a
  else if fle (F.fin 1) t then b
  else Vector3.lerp_unclamped a b t

/-- `Vector3::slerp_unclamped`: `omega = acos(dot)`, then
`sin((1-t)·omega)·self / sin(omega) + sin(t·omega)·other / sin(omega)`. -/
def Vector3.slerp_unclamped (a b : Vector3) (t : F) : Vector3 :=
  Vector3.add
    (Vector3.divScalar
      (Vector3.smul (fsin (fmul (fsub (F.fin 1) t) (facos (Vector3.dot a b)))) a)
      (fsin (facos (Vector3.dot a b))))
    (Vector3.divScalar
      (Vector3.smul (fsin (fmul t (facos (Vector3.dot a b)))) b)
      (fsin (facos (Vector3.dot a b))))

/-- `Vector3::slerp`: returns `self` when `t <= 0.0`, `other` when
`t >= 1.0`, otherwise delegates to `slerp_unclamped`. -/
def Vector3.slerp (a b : Vector3) (t : F) : Vector3 :=
  if fle t (F.fin 0) then a
  else if fle (F.fin 1) t then b
  else Vector3.slerp_unclamped a b t

/-- `impl From<Vector2> for Vector3`: appends a z component of 0. -/
def Vector3.ofVector2 (v : Vector2) : Vector3 := ⟨v.x, v.y, F.fin 0⟩

/-- Derived `PartialOrd for Vector3`: lexicographic `partial_cmp` over the
fields in declaration order. -/
def Vector3.vcmp (a b : Vector3) : Option Ordering :=
  match fcmp a.x b.x with
  | some Ordering.eq =>
      match fcmp a.y b.y with
      | some Ordering.eq => fcmp a.z b.z
      | c => c
  | c => c

/-- Rust `>=` on `Vector3`: `partial_cmp` is `Greater` or `Equal`. -/
def Vector3.vge (a b : Vector3) : Bool :=
  match Vector3.vcmp a b with
  | some Ordering.gt => true
  | some Ordering.eq => true
  | _ => false

/-- Rust `<=` on `Vector3`: `partial_cmp` is `Less` or `Equal`. -/
def Vector3.vle (a b : Vector3) : Bool :=
  match Vector3.vcmp a b with
  | some Ordering.lt => true
  | some Ordering.eq => true
  | _ => false

/-- Default `Vector::max` for `Vector3`. -/
def Vector3.max (a b : Vector3) : Vector3 := if Vector3.vge a b then a else b

/-- Default `Vector::min` for `Vector3`. -/
def Vector3.min (a b : Vector3) : Vector3 := if Vector3.vle a b then a else b

/-- NaN absorbs on the left of addition. -/
theorem fadd_nan_left (x : F) : fadd F.nan x = F.nan := by cases x <;> rfl

/-- NaN absorbs on the right of addition. -/
theorem fadd_nan_right (x : F) : fadd x F.nan = F.nan := by cases x <;> rfl

/-- NaN absorbs on the left of multiplication. -/
theorem fmul_nan_left (x : F) : fmul F.nan x = F.nan := by cases x <;> rfl

/-- NaN absorbs on the right of multiplication. -/
theorem fmul_nan_right (x : F) : fmul x F.nan = F.nan := by cases x <;> rfl

/-- NaN absorbs on the right of subtraction. -/
theorem fsub_nan_right (x : F) : fsub x F.nan = F.nan := by cases x <;> rfl

/-- A scalar that is at least 1 under IEEE `<=` is not at most 0. -/
theorem fle_one_not_le_zero {t : F} (h : fle (F.fin 1) t = true) :
    fle t (F.fin 0) = false := by
  cases t with
  | fin q =>
      simp only [fle, decide_eq_true_eq] at h
      simp only [fle, decide_eq_false_iff_not]
      intro hq
      linarith
  | inf => rfl
  | ninf => simp [fle] at h
  | nan => rfl

/-- IEEE equality is reflexive away from NaN. -/
theorem fbeq_self {x : F} (h : x ≠ F.nan) : fbeq x x = true := by
  cases x with
  | fin q => simp [fbeq]
  | inf => rfl
  | ninf => rfl
  | nan => exact absurd rfl h

/-- Multiplying any scalar by the zero scalar yields zero or NaN. -/
theorem fmul_fin_zero (x : F) : fmul x (F.fin 0) = F.fin 0 ∨ fmul x (F.fin 0) = F.nan := by
  cases x <;> simp [fmul]

/-- A finite scalar is a `fin`. -/
theorem isFinite_iff {x : F} : F.isFinite x = true ↔ ∃ q : ℚ, x = F.fin q := by
  cases x <;> simp [F.isFinite]

/-- The model square root is exact on squares of nonnegative rationals. -/
theorem fsqrt_sq {q : ℚ} (h : 0 ≤ q) : fsqrt (F.fin (q * q)) = F.fin q := by
  have h2 : ¬ (q * q < 0) := not_lt.mpr (mul_nonneg h h)
  simp [fsqrt, h2, Rat.sqrt_eq, abs_of_nonneg h]

/-- The model square root of zero is zero. -/
theorem fsqrt_zero : fsqrt (F.fin 0) = F.fin 0 := by
  have h := fsqrt_sq (q := 0) le_rfl
  simpa using h

/-- The magnitude of the 2D vector `(3, 4)` is 5. -/
theorem mag2_three_four : Vector2.magnitude ⟨F.fin 3, F.fin 4⟩ = F.fin 5 := by
  have h : Vector2.sqr_magnitude ⟨F.fin 3, F.fin 4⟩ = F.fin (5 * 5) := by
    norm_num [Vector2.sqr_magnitude, fsq, fmul, fadd]
  rw [Vector2.magnitude, h, fsqrt_sq (by norm_num : (0:ℚ) ≤ 5)]

/-- The magnitude of the 3D vector `(1, 2, 2)` is 3. -/
theorem mag3_one_two_two : Vector3.magnitude ⟨F.fin 1, F.fin 2, F.fin 2⟩ = F.fin 3 := by
  have h : Vector3.sqr_magnitude ⟨F.fin 1, F.fin 2, F.fin 2⟩ = F.fin (3 * 3) := by
    norm_num [Vector3.sqr_magnitude, fsq, fmul, fadd]
  rw [Vector3.magnitude, h, fsqrt_sq (by norm_num : (0:ℚ) ≤ 3)]

/-- Normalizing the 2D zero vector yields NaN in both components. -/
theorem normalized_zero2 : Vector2.normalized Vector2.zero = ⟨F.nan, F.nan⟩ := by
  have hm : Vector2.magnitude Vector2.zero = F.fin 0 := by
    simp [Vector2.magnitude, Vector2.sqr_magnitude, Vector2.zero, fsq, fmul, fadd, fsqrt_zero]
  unfold Vector2.normalized
  rw [hm]
  simp [Vector2.divScalar, Vector2.zero, fdiv]

/-- Normalizing the 3D zero vector yields NaN in all three components. -/
theorem normalized_zero3 : Vector3.normalized Vector3.zero = ⟨F.nan, F.nan, F.nan⟩ := by
  have hm : Vector3.magnitude Vector3.zero = F.fin 0 := by
    simp [Vector3.magnitude, Vector3.sqr_magnitude, Vector3.zero, fsq, fmul, fadd, fsqrt_zero]
  unfold Vector3.normalized
  rw [hm]
  simp [Vector3.divScalar, Vector3.zero, fdiv]

/-- C1: `Vector2::dot` is the sum of the component-wise products, but
`Vector3::dot` as written in the source omits the z term: at
`a = b = Vector3::new(0, 0, 1)` it returns 0, while the sum of the
component-wise products over every component (the claimed value, matching
`Vector3.dotSpec`) is 1. -/
theorem C1_vector3_dot_omits_z :
    (∀ a b : Vector2, Vector2.dot a b = fadd (fmul a.x b.x) (fmul a.y b.y)) ∧
    Vector3.dot ⟨F.fin 0, F.fin 0, F.fin 1⟩ ⟨F.fin 0, F.fin 0, F.fin 1⟩ = F.fin 0 ∧
    Vector3.dotSpec ⟨F.fin 0, F.fin 0, F.fin 1⟩ ⟨F.fin 0, F.fin 0, F.fin 1⟩ = F.fin 1 ∧
    F.fin (0 : ℚ) ≠ F.fin 1 := by
  refine ⟨fun a b => rfl, ?_, ?_, by simp⟩
  · norm_num [Vector3.dot, fmul, fadd]
  · norm_num [Vector3.dotSpec, fmul, fadd]

/-- C4: for both types, when `magnitude(v) > max_len` (IEEE `>`),
`clamp_magnitude(v, max_len)` returns the component-wise division of `v` by
`max_len`, not a rescale to magnitude exactly `max_len`. -/
theorem C4_clamp_magnitude_divides (v : Vector2) (w : Vector3) (m : F)
    (h2 : fgt (Vector2.magnitude v) m = true)
    (h3 : fgt (Vector3.magnitude w) m = true) :
    Vector2.clamp_magnitude v m = ⟨fdiv v.x m, fdiv v.y m⟩ ∧
    Vector3.clamp_magnitude w m = ⟨fdiv w.x m, fdiv w.y m, fdiv w.z m⟩ := by
  constructor
  · simp [Vector2.clamp_magnitude, h2, Vector2.divScalar]
  · simp [Vector3.clamp_magnitude, h3, Vector3.divScalar]

/-- C4 witness: `(3,4)` has magnitude 5 and `(1,2,2)` has magnitude 3, both
above `max_len = 1`, and clamping divides each component by 1. -/
theorem C4_clamp_magnitude_divides_witness :
    Vector2.clamp_magnitude ⟨F.fin 3, F.fin 4⟩ (F.fin 1) =
      ⟨fdiv (F.fin 3) (F.fin 1), fdiv (F.fin 4) (F.fin 1)⟩ ∧
    Vector3.clamp_magnitude ⟨F.fin 1, F.fin 2, F.fin 2⟩ (F.fin 1) =
      ⟨fdiv (F.fin 1) (F.fin 1), fdiv (F.fin 2) (F.fin 1), fdiv (F.fin 2) (F.fin 1)⟩ :=
  C4_clamp_magnitude_divides ⟨F.fin 3, F.fin 4⟩ ⟨F.fin 1, F.fin 2, F.fin 2⟩ (F.fin 1)
    (by rw [mag2_three_four]; norm_num [fgt, flt])
    (by rw [mag3_one_two_two]; norm_num [fgt, flt])

/-- C6: `lerp` on both types and `Vector3::slerp` return the first operand
unchanged when `t <= 0`, the second operand unchanged when `t >= 1`, and
otherwise the corresponding unclamped blend, which for `lerp` is
`(1 − t)·a + t·b`. -/
theorem C6_lerp_slerp_clamp (a2 b2 : Vector2) (a3 b3 : Vector3) (t : F) :
    (fle t (F.fin 0) = true →
      Vector2.lerp a2 b2 t = a2 ∧ Vector3.lerp a3 b3 t = a3 ∧
      Vector3.slerp a3 b3 t = a3) ∧
    (fle (F.fin 1) t = true →
      Vector2.lerp a2 b2 t = b2 ∧ Vector3.lerp a3 b3 t = b3 ∧
      Vector3.slerp a3 b3 t = b3) ∧
    (fle t (F.fin 0) = false → fle (F.fin 1) t = false →
      Vector2.lerp a2 b2 t = Vector2.lerp_unclamped a2 b2 t ∧
      Vector3.lerp a3 b3 t = Vector3.lerp_unclamped a3 b3 t ∧
      Vector3.slerp a3 b3 t = Vector3.slerp_unclamped a3 b3 t) ∧
    Vector2.lerp_unclamped a2 b2 t =
      Vector2.add (Vector2.smul (fsub (F.fin 1) t) a2) (Vector2.smul t b2) ∧
    Vector3.lerp_unclamped a3 b3 t =
      Vector3.add (Vector3.smul (fsub (F.fin 1) t) a3) (Vector3.smul t b3) := by
  refine ⟨fun h => ?_, fun h => ?_, fun h0 h1 => ?_, rfl, rfl⟩
  · simp [Vector2.lerp, Vector3.lerp, Vector3.slerp, h]
  · have h0 := fle_one_not_le_zero h
    simp [Vector2.lerp, Vector3.lerp, Vector3.slerp, h, h0]
  · simp [Vector2.lerp, Vector3.lerp, Vector3.slerp, h0, h1]

/-- C6 witness: at `t = −1` both lerps and slerp return the first operand;
at `t = 2` they return the second operand. -/
theorem C6_lerp_slerp_clamp_witness :
    (Vector2.lerp ⟨F.fin 1, F.fin 2⟩ ⟨F.fin 3, F.fin 4⟩ (F.fin (-1)) = ⟨F.fin 1, F.fin 2⟩ ∧
      Vector3.lerp ⟨F.fin 1, F.fin 2, F.fin 3⟩ ⟨F.fin 4, F.fin 5, F.fin 6⟩ (F.fin (-1)) =
        ⟨F.fin 1, F.fin 2, F.fin 3⟩ ∧
      Vector3.slerp ⟨F.fin 1, F.fin 2, F.fin 3⟩ ⟨F.fin 4, F.fin 5, F.fin 6⟩ (F.fin (-1)) =
        ⟨F.fin 1, F.fin 2, F.fin 3⟩) ∧
    (Vector2.lerp ⟨F.fin 1, F.fin 2⟩ ⟨F.fin 3, F.fin 4⟩ (F.fin 2) = ⟨F.fin 3, F.fin 4⟩ ∧
      Vector3.lerp ⟨F.fin 1, F.fin 2, F.fin 3⟩ ⟨F.fin 4, F.fin 5, F.fin 6⟩ (F.fin 2) =
        ⟨F.fin 4, F.fin 5, F.fin 6⟩ ∧
      Vector3.slerp ⟨F.fin 1, F.fin 2, F.fin 3⟩ ⟨F.fin 4, F.fin 5, F.fin 6⟩ (F.fin 2) =
        ⟨F.fin 4, F.fin 5, F.fin 6⟩) :=
  ⟨(C6_lerp_slerp_clamp ⟨F.fin 1, F.fin 2⟩ ⟨F.fin 3, F.fin 4⟩
      ⟨F.fin 1, F.fin 2, F.fin 3⟩ ⟨F.fin 4, F.fin 5, F.fin 6⟩ (F.fin (-1))).1 (by decide),
   (C6_lerp_slerp_clamp ⟨F.fin 1, F.fin 2⟩ ⟨F.fin 3, F.fin 4⟩
      ⟨F.fin 1, F.fin 2, F.fin 3⟩ ⟨F.fin 4, F.fin 5, F.fin 6⟩ (F.fin 2)).2.1 (by decide)⟩

/-- C10: when `t` is NaN both clamp tests of `lerp` are false, the unclamped
blend is computed, and every component of the result is NaN, on both types. -/
theorem C10_lerp_nan (a2 b2 : Vector2) (a3 b3 : Vector3) :
    fle F.nan (F.fin 0) = false ∧ fle (F.fin 1) F.nan = false ∧
    Vector2.lerp a2 b2 F.nan = Vector2.lerp_unclamped a2 b2 F.nan ∧
    Vector3.lerp a3 b3 F.nan = Vector3.lerp_unclamped a3 b3 F.nan ∧
    (Vector2.lerp a2 b2 F.nan).x = F.nan ∧ (Vector2.lerp a2 b2 F.nan).y = F.nan ∧
    (Vector3.lerp a3 b3 F.nan).x = F.nan ∧ (Vector3.lerp a3 b3 F.nan).y = F.nan ∧
    (Vector3.lerp a3 b3 F.nan).z = F.nan := by
  refine ⟨rfl, rfl, ?_, ?_, ?_, ?_, ?_, ?_, ?_⟩ <;>
    simp [Vector2.lerp, Vector3.lerp, fle, Vector2.lerp_unclamped,
      Vector3.lerp_unclamped, Vector2.add, Vector3.add, Vector2.smul, Vector3.smul,
      fsub_nan_right, fmul_nan_left, fadd_nan_left]

/-- C7: `normalized(v)` is `v / magnitude(v)` for both types (a new value;
the embedding is of the by-value method, which cannot mutate its receiver),
and normalizing the zero vector yields NaN-or-Infinity components (here NaN)
on every component, with no failure. -/
theorem C7_normalized_div_by_magnitude (v : Vector2) (w : Vector3) :
    Vector2.normalized v = Vector2.divScalar v (Vector2.magnitude v) ∧
    Vector3.normalized w = Vector3.divScalar w (Vector3.magnitude w) ∧
    ((Vector2.normalized Vector2.zero).x = F.nan ∨ (Vector2.normalized Vector2.zero).x = F.inf) ∧
    ((Vector2.normalized Vector2.zero).y = F.nan ∨ (Vector2.normalized Vector2.zero).y = F.inf) ∧
    ((Vector3.normalized Vector3.zero).x = F.nan ∨ (Vector3.normalized Vector3.zero).x = F.inf) ∧
    ((Vector3.normalized Vector3.zero).y = F.nan ∨ (Vector3.normalized Vector3.zero).y = F.inf) ∧
    ((Vector3.normalized Vector3.zero).z = F.nan ∨ (Vector3.normalized Vector3.zero).z = F.inf) := by
  refine ⟨rfl, rfl, ?_, ?_, ?_, ?_, ?_⟩ <;> simp [normalized_zero2, normalized_zero3]

/-- C3 counterexample: with `a = (NaN, 0)` and `b = (0, 0)` the operands are
incomparable (`partial_cmp` is `None`), yet `max(a, b)` and `min(a, b)` both
return `b`, not the claimed default `a`. -/
theorem C3_counterexample :
    Vector2.vcmp ⟨F.nan, F.fin 0⟩ ⟨F.fin 0, F.fin 0⟩ = none ∧
    Vector2.max ⟨F.nan, F.fin 0⟩ ⟨F.fin 0, F.fin 0⟩ = ⟨F.fin 0, F.fin 0⟩ ∧
    Vector2.min ⟨F.nan, F.fin 0⟩ ⟨F.fin 0, F.fin 0⟩ = ⟨F.fin 0, F.fin 0⟩ ∧
    (⟨F.fin 0, F.fin 0⟩ : Vector2) ≠ ⟨F.nan, F.fin 0⟩ := by
  decide

/-- C3 amended: for both types, `max(a, b)` returns `a` exactly when
`a >= b` under the ordering comparison (so in particular when the operands
are equal) and returns `b` otherwise, including when the operands are
incomparable; dually `min(a, b)` returns `a` exactly when `a <= b`. -/
theorem C3_max_min_amended (a2 b2 : Vector2) (a3 b3 : Vector3) :
    (Vector2.vge a2 b2 = true → Vector2.max a2 b2 = a2) ∧
    (Vector2.vge a2 b2 = false → Vector2.max a2 b2 = b2) ∧
    (Vector2.vle a2 b2 = true → Vector2.min a2 b2 = a2) ∧
    (Vector2.vle a2 b2 = false → Vector2.min a2 b2 = b2) ∧
    (Vector2.vcmp a2 b2 = some Ordering.eq →
      Vector2.max a2 b2 = a2 ∧ Vector2.min a2 b2 = a2) ∧
    (Vector3.vge a3 b3 = true → Vector3.max a3 b3 = a3) ∧
    (Vector3.vge a3 b3 = false → Vector3.max a3 b3 = b3) ∧
    (Vector3.vle a3 b3 = true → Vector3.min a3 b3 = a3) ∧
    (Vector3.vle a3 b3 = false → Vector3.min a3 b3 = b3) ∧
    (Vector3.vcmp a3 b3 = some Ordering.eq →
      Vector3.max a3 b3 = a3 ∧ Vector3.min a3 b3 = a3) := by
  refine ⟨fun h => ?_, fun h => ?_, fun h => ?_, fun h => ?_, fun h => ?_,
    fun h => ?_, fun h => ?_, fun h => ?_, fun h => ?_, fun h => ?_⟩
  · simp [Vector2.max, h]
  · simp [Vector2.max, h]
  · simp [Vector2.min, h]
  · simp [Vector2.min, h]
  · constructor <;> simp [Vector2.max, Vector2.min, Vector2.vge, Vector2.vle, h]
  · simp [Vector3.max, h]
  · simp [Vector3.max, h]
  · simp [Vector3.min, h]
  · simp [Vector3.min, h]
  · constructor <;> simp [Vector3.max, Vector3.min, Vector3.vge, Vector3.vle, h]

/-- C3 witness: `(1, 0) >= (0, 0)` holds, so `max` returns the first
operand there. -/
theorem C3_max_min_amended_witness :
    Vector2.max ⟨F.fin 1, F.fin 0⟩ ⟨F.fin 0, F.fin 0⟩ = ⟨F.fin 1, F.fin 0⟩ :=
  (C3_max_min_amended ⟨F.fin 1, F.fin 0⟩ ⟨F.fin 0, F.fin 0⟩
    ⟨F.fin 0, F.fin 0, F.fin 0⟩ ⟨F.fin 0, F.fin 0, F.fin 0⟩).1 (by decide)

/-- C8 counterexample: the round trip preserves the components bit-for-bit,
but the library equality `==` is component-wise IEEE equality, so at
`v2 = (NaN, 0)` the claimed `Vector2::from(Vector3::from(v2)) == v2` is
false. -/
theorem C8_counterexample :
    Vector2.veq (Vector2.ofVector3 (Vector3.ofVector2 ⟨F.nan, F.fin 0⟩))
      ⟨F.nan, F.fin 0⟩ = false := by
  decide

/-- C8 amended: converting a `Vector2` to a `Vector3` (appending z = 0) and
back yields exactly the original components for every `v2`; the library
equality `==` additionally holds whenever no component of `v2` is NaN. -/
theorem C8_roundtrip_amended (v : Vector2) :
    Vector2.ofVector3 (Vector3.ofVector2 v) = v ∧
    (v.x ≠ F.nan → v.y ≠ F.nan →
      Vector2.veq (Vector2.ofVector3 (Vector3.ofVector2 v)) v = true) := by
  refine ⟨rfl, fun hx hy => ?_⟩
  simp [Vector2.ofVector3, Vector3.ofVector2, Vector2.veq, fbeq_self hx, fbeq_self hy]

/-- C8 witness: the round trip at `(1, 2)` returns `(1, 2)` and `==` holds. -/
theorem C8_roundtrip_amended_witness :
    Vector2.veq (Vector2.ofVector3 (Vector3.ofVector2 ⟨F.fin 1, F.fin 2⟩))
      ⟨F.fin 1, F.fin 2⟩ = true :=
  (C8_roundtrip_amended ⟨F.fin 1, F.fin 2⟩).2 (by decide) (by decide)

/-- C9 counterexample: under the library equality `==` (IEEE, component-wise)
the three identities fail on non-finite components: `v + zero() == v` and
`v * 1.0 == v` fail at `v = (NaN, 0)`, and `v - v == zero()` fails at
`v = (+inf, 0)` because `inf - inf` is NaN. -/
theorem C9_counterexample :
    Vector2.veq (Vector2.add ⟨F.nan, F.fin 0⟩ Vector2.zero) ⟨F.nan, F.fin 0⟩ = false ∧
    Vector2.veq (Vector2.sub ⟨F.inf, F.fin 0⟩ ⟨F.inf, F.fin 0⟩) Vector2.zero = false ∧
    Vector2.veq (Vector2.mulScalar ⟨F.nan, F.fin 0⟩ (F.fin 1)) ⟨F.nan, F.fin 0⟩ = false := by
  refine ⟨?_, ?_, ?_⟩ <;>
    simp [Vector2.veq, Vector2.add, Vector2.sub, Vector2.mulScalar, Vector2.zero,
      fadd, fsub, fmul, fbeq]

/-- C9 amended: for every vector all of whose components are finite (neither
NaN nor infinite), `v + zero() == v`, `v - v == zero()` and `v * 1.0 == v`
hold under the library equality, on both types. -/
theorem C9_identities_amended (v : Vector2) (w : Vector3)
    (hvx : F.isFinite v.x = true) (hvy : F.isFinite v.y = true)
    (hwx : F.isFinite w.x = true) (hwy : F.isFinite w.y = true)
    (hwz : F.isFinite w.z = true) :
    Vector2.veq (Vector2.add v Vector2.zero) v = true ∧
    Vector2.veq (Vector2.sub v v) Vector2.zero = true ∧
    Vector2.veq (Vector2.mulScalar v (F.fin 1)) v = true ∧
    Vector3.veq (Vector3.add w Vector3.zero) w = true ∧
    Vector3.veq (Vector3.sub w w) Vector3.zero = true ∧
    Vector3.veq (Vector3.mulScalar w (F.fin 1)) w = true := by
  obtain ⟨a, ha⟩ := isFinite_iff.mp hvx
  obtain ⟨b, hb⟩ := isFinite_iff.mp hvy
  obtain ⟨c, hc⟩ := isFinite_iff.mp hwx
  obtain ⟨d, hd⟩ := isFinite_iff.mp hwy
  obtain ⟨e, he⟩ := isFinite_iff.mp hwz
  refine ⟨?_, ?_, ?_, ?_, ?_, ?_⟩ <;>
    simp [ha, hb, hc, hd, he, Vector2.veq, Vector3.veq, Vector2.add, Vector3.add,
      Vector2.sub, Vector3.sub, Vector2.mulScalar, Vector3.mulScalar,
      Vector2.zero, Vector3.zero, fadd, fsub, fmul, fbeq]

/-- C9 witness: the three identities at the finite vectors `(1, 2)` and
`(3, 4, 5)`. -/
theorem C9_identities_amended_witness :
    Vector2.veq (Vector2.add ⟨F.fin 1, F.fin 2⟩ Vector2.zero) ⟨F.fin 1, F.fin 2⟩ = true ∧
    Vector2.veq (Vector2.sub ⟨F.fin 1, F.fin 2⟩ ⟨F.fin 1, F.fin 2⟩) Vector2.zero = true ∧
    Vector2.veq (Vector2.mulScalar ⟨F.fin 1, F.fin 2⟩ (F.fin 1)) ⟨F.fin 1, F.fin 2⟩ = true ∧
    Vector3.veq (Vector3.add ⟨F.fin 3, F.fin 4, F.fin 5⟩ Vector3.zero)
      ⟨F.fin 3, F.fin 4, F.fin 5⟩ = true ∧
    Vector3.veq (Vector3.sub ⟨F.fin 3, F.fin 4, F.fin 5⟩ ⟨F.fin 3, F.fin 4, F.fin 5⟩)
      Vector3.zero = true ∧
    Vector3.veq (Vector3.mulScalar ⟨F.fin 3, F.fin 4, F.fin 5⟩ (F.fin 1))
      ⟨F.fin 3, F.fin 4, F.fin 5⟩ = true :=
  C9_identities_amended ⟨F.fin 1, F.fin 2⟩ ⟨F.fin 3, F.fin 4, F.fin 5⟩ rfl rfl rfl rfl rfl

/-- Projecting onto the 2D zero vector divides zero-or-NaN by zero. -/
theorem dot_zero2 (v : Vector2) :
    fdiv (Vector2.dot v Vector2.zero) (Vector2.dot Vector2.zero Vector2.zero) = F.nan := by
  obtain ⟨x, y⟩ := v
  cases x <;> cases y <;>
    simp [Vector2.dot, Vector2.zero, fmul, fadd, fdiv]

/-- Projecting onto the 2D zero vector yields NaN in both components. -/
theorem project_zero2 (v : Vector2) : Vector2.project v Vector2.zero = ⟨F.nan, F.nan⟩ := by
  have h := dot_zero2 v
  unfold Vector2.project Vector2.smul
  rw [h]
  rfl

/-- Projecting onto the 3D zero vector divides zero-or-NaN by zero. -/
theorem dot_zero3 (u : Vector3) :
    fdiv (Vector3.dotSpec u Vector3.zero) (Vector3.dotSpec Vector3.zero Vector3.zero) = F.nan := by
  obtain ⟨x, y, z⟩ := u
  cases x <;> cases y <;> cases z <;>
    simp [Vector3.dotSpec, Vector3.zero, fmul, fadd, fdiv]

/-- Projecting onto the 3D zero vector yields NaN in all three components. -/
theorem project_zero3 (u : Vector3) :
    Vector3.project u Vector3.zero = ⟨F.nan, F.nan, F.nan⟩ := by
  have h := dot_zero3 u
  unfold Vector3.project Vector3.smul
  rw [h]
  rfl

/-- C2: `project(v, onto)` is `(dot(v, onto) / dot(onto, onto)) * onto` with
`dot` the sum of the component-wise products, on `Vector2` from the source
and on `Vector3` as modelled from the spec; projecting any `v` onto the zero
vector yields NaN in every component. -/
theorem C2_project_formula_and_zero (v onto : Vector2) (u w : Vector3) :
    Vector2.project v onto =
      Vector2.smul (fdiv (fadd (fmul v.x onto.x) (fmul v.y onto.y))
        (fadd (fmul onto.x onto.x) (fmul onto.y onto.y))) onto ∧
    Vector3.project u w =
      Vector3.smul (fdiv (fadd (fadd (fmul u.x w.x) (fmul u.y w.y)) (fmul u.z w.z))
        (fadd (fadd (fmul w.x w.x) (fmul w.y w.y)) (fmul w.z w.z))) w ∧
    (Vector2.project v Vector2.zero).x = F.nan ∧
    (Vector2.project v Vector2.zero).y = F.nan ∧
    (Vector3.project u Vector3.zero).x = F.nan ∧
    (Vector3.project u Vector3.zero).y = F.nan ∧
    (Vector3.project u Vector3.zero).z = F.nan := by
  refine ⟨rfl, rfl, ?_, ?_, ?_, ?_, ?_⟩ <;>
    simp [project_zero2, project_zero3]

/-- C5 counterexample: at `v = (NaN, +inf)` a component is infinite, yet the
magnitude is NaN rather than the claimed +Infinity, because NaN propagates
through the sum of squares. -/
theorem C5_counterexample :
    F.isInfinite (⟨F.nan, F.inf⟩ : Vector2).y = true ∧
    Vector2.magnitude ⟨F.nan, F.inf⟩ = F.nan ∧
    F.nan ≠ F.inf := by
  refine ⟨rfl, ?_, by simp⟩
  simp [Vector2.magnitude, Vector2.sqr_magnitude, fsq, fmul, fadd, fsqrt]

/-- C5 amended: `magnitude(v)` is the square root of the sum of the squared
components and never fails; it is NaN whenever any component is NaN, and it
is +Infinity whenever some component is infinite and no component is NaN. -/
theorem C5_magnitude_amended (v : Vector2) (w : Vector3) :
    Vector2.magnitude v = fsqrt (fadd (fsq v.x) (fsq v.y)) ∧
    ((v.x = F.nan ∨ v.y = F.nan) → Vector2.magnitude v = F.nan) ∧
    ((F.isInfinite v.x = true ∨ F.isInfinite v.y = true) →
      v.x ≠ F.nan → v.y ≠ F.nan → Vector2.magnitude v = F.inf) ∧
    Vector3.magnitude w = fsqrt (fadd (fadd (fsq w.x) (fsq w.y)) (fsq w.z)) ∧
    ((w.x = F.nan ∨ w.y = F.nan ∨ w.z = F.nan) → Vector3.magnitude w = F.nan) ∧
    ((F.isInfinite w.x = true ∨ F.isInfinite w.y = true ∨ F.isInfinite w.z = true) →
      w.x ≠ F.nan → w.y ≠ F.nan → w.z ≠ F.nan → Vector3.magnitude w = F.inf) := by
  obtain ⟨x, y⟩ := v
  obtain ⟨p, q, r⟩ := w
  refine ⟨rfl, ?_, ?_, rfl, ?_, ?_⟩
  · intro h
    cases x <;> cases y <;>
      simp_all [Vector2.magnitude, Vector2.sqr_magnitude, fsq, fmul, fadd, fsqrt]
  · intro h hx hy
    cases x <;> cases y <;>
      simp_all [F.isInfinite, Vector2.magnitude, Vector2.sqr_magnitude, fsq, fmul, fadd, fsqrt]
  · intro h
    cases p <;> cases q <;> cases r <;>
      simp_all [Vector3.magnitude, Vector3.sqr_magnitude, fsq, fmul, fadd, fsqrt]
  · intro h hp hq hr
    cases p <;> cases q <;> cases r <;>
      simp_all [F.isInfinite, Vector3.magnitude, Vector3.sqr_magnitude, fsq, fmul, fadd, fsqrt]

/-- C5 witness: a NaN component gives a NaN magnitude, and an infinite
component with no NaN gives a +Infinity magnitude. -/
theorem C5_magnitude_amended_witness :
    Vector2.magnitude ⟨F.nan, F.fin 0⟩ = F.nan ∧
    Vector3.magnitude ⟨F.inf, F.fin 1, F.fin 2⟩ = F.inf :=
  ⟨(C5_magnitude_amended ⟨F.nan, F.fin 0⟩ ⟨F.inf, F.fin 1, F.fin 2⟩).2.1 (Or.inl rfl),
   (C5_magnitude_amended ⟨F.nan, F.fin 0⟩ ⟨F.inf, F.fin 1, F.fin 2⟩).2.2.2.2.2
     (Or.inl rfl) (by decide) (by decide) (by decide)⟩

end Vect
